import Mathlib

/-!
Shallow embedding of `src/workers/rust-worker/src/lib.rs` (the SpecCursor
Rust upgrade worker) and proofs about its upgrade pipeline.

Rust strings are Lean `String`s (operated on through their character
lists), `f64` scores are modelled as exact rationals, `Result` is
`Except`, and `HashMap<String, serde_json::Value>` is an association
list over a small JSON type.  The worker's `&self` receiver carries only
configuration that none of the embedded functions read, so the methods
become plain functions.
-/

/-- JSON values, modelling `serde_json::Value` for the opaque `metadata`
maps (numbers as exact rationals). -/
inductive Json where
  | null : Json
  | boolVal : Bool → Json
  | numVal : ℚ → Json
  | strVal : String → Json
  | arrVal : List Json → Json
  | objVal : List (String × Json) → Json

/-- `UpgradeRequest` from lib.rs. -/
structure UpgradeRequest where
  repository : String
  ecosystem : String
  package_name : String
  current_version : String
  target_version : String
  metadata : List (String × Json)

/-- `ChangeType` from lib.rs. -/
inductive ChangeType where
  | Add : ChangeType
  | Modify : ChangeType
  | Delete : ChangeType
deriving DecidableEq

/-- `Change` from lib.rs. -/
structure Change where
  file_path : String
  change_type : ChangeType
  content : String
  metadata : List (String × Json)

/-- `RiskLevel` from lib.rs. -/
inductive RiskLevel where
  | Low : RiskLevel
  | Medium : RiskLevel
  | High : RiskLevel
  | Critical : RiskLevel
deriving DecidableEq

/-- `PerformanceImpact` from lib.rs. -/
inductive PerformanceImpact where
  | None : PerformanceImpact
  | Low : PerformanceImpact
  | Medium : PerformanceImpact
  | High : PerformanceImpact
deriving DecidableEq

/-- `RiskAssessment` from lib.rs. -/
structure RiskAssessment where
  risk_level : RiskLevel
  breaking_changes : Bool
  security_issues : List String
  performance_impact : PerformanceImpact

/-- `ErrorType` from lib.rs. -/
inductive ErrorType where
  | Validation : ErrorType
  | Compatibility : ErrorType
  | Security : ErrorType
  | Performance : ErrorType
  | Network : ErrorType
  | Internal : ErrorType
deriving DecidableEq

/-- `UpgradeError` from lib.rs. -/
structure UpgradeError where
  message : String
  error_type : ErrorType

/-- `UpgradeResponse` from lib.rs (`compatibility_score: f64` modelled as `ℚ`). -/
structure UpgradeResponse where
  success : Bool
  message : String
  changes : List Change
  compatibility_score : ℚ
  risk_assessment : RiskAssessment

/-- Rust `str::split('.')`: splits a character list at every `'.'`,
keeping empty pieces, so the result is always non-empty (the empty
string splits to `[[]]`). -/
def splitDot : List Char → List (List Char)
  | [] => [[]]
  | c :: rest =>
    if c = '.' then [] :: splitDot rest
    else
      match splitDot rest with
      | [] => [[c]]
      | h :: t => (c :: h) :: t

/-- Whether `p` occurs at the start of `l` (helper for substring search). -/
def startsList : List Char → List Char → Bool
  | [], _ => true
  | _ :: _, [] => false
  | p :: ps, c :: cs => p == c && startsList ps cs

/-- Whether `pat` occurs as a contiguous sublist of the second argument. -/
def listHasSub (pat : List Char) : List Char → Bool
  | [] => pat.isEmpty
  | c :: rest => startsList pat (c :: rest) || listHasSub pat rest

/-- Rust `str::contains(&str)`: substring containment. -/
def rustContains (s pat : String) : Bool :=
  listHasSub pat.data s.data

/-- Model of Rust `char::is_alphanumeric` (true on Unicode `Alphabetic`
characters and on the `Nd`/`Nl`/`No` numeric categories).  The table is
exact for every codepoint up to U+00FF — the ASCII fast path plus the
Latin-1 alphanumerics — and maps higher codepoints to `false`, so it is
a fragment of the real classifier.  Every closed evaluation below
applies it to Latin-1 characters only, where it agrees with Rust, and
the validation theorem is stated for an arbitrary classifier, so
nothing proved here depends on the unmodelled part of the table. -/
def rustIsAlphanumeric (c : Char) : Bool :=
  if c.toNat ≤ 0x7F then c.isAlphanum
  else if c.toNat ≤ 0xFF then
    c.toNat == 0xAA || c.toNat == 0xB5 || c.toNat == 0xBA ||
    c.toNat == 0xB2 || c.toNat == 0xB3 || c.toNat == 0xB9 ||
    c.toNat == 0xBC || c.toNat == 0xBD || c.toNat == 0xBE ||
    (0xC0 ≤ c.toNat && c.toNat != 0xD7 && c.toNat != 0xF7)
  else false

/-- Rust `str::parse::<u32>`: an optional leading `'+'` (a `'-'` is
rejected for unsigned types), then a non-empty run of ASCII decimal
digits whose value fits in 32 bits; anything else fails. -/
def parseU32 (s : List Char) : Option Nat :=
  let digits : Option (List Char) :=
    match s with
    | '+' :: rest => some rest
    | '-' :: _ => none
    | l => some l
  match digits with
  | none => none
  | some [] => none
  | some l =>
    if l.all Char.isDigit then
      let v := l.foldl (fun a c => a * 10 + (c.toNat - 48)) 0
      if v < 4294967296 then some v else none
    else none

/-- The body of `UpgradeWorker::is_valid_version` from lib.rs,
parametrized by the character classifier standing for
`char::is_alphanumeric`: split on `'.'`, require 2 or 3 parts, each
non-empty and made of accepted characters or `'-'`.  The
parametrization lets the validation theorem quantify over every
classifier — in particular Rust's real Unicode one — instead of
depending on how much of the Unicode table `rustIsAlphanumeric`
models. -/
def is_valid_version_with (alnum : Char → Bool) (version : String) : Bool :=
  let parts := splitDot version.data
  if parts.length < 2 || parts.length > 3 then false
  else
    parts.all fun part =>
      !part.isEmpty && part.all fun c => alnum c || c == '-'

/-- `UpgradeWorker::is_valid_version` from lib.rs, instantiated at the
modelled classifier. -/
def is_valid_version (version : String) : Bool :=
  is_valid_version_with rustIsAlphanumeric version

/-- `UpgradeWorker::is_major_version_jump` from lib.rs: compare the first
dot-separated components parsed as `u32` (`unwrap_or(0)`). -/
def is_major_version_jump (current target : String) : Bool :=
  let current_parts := splitDot current.data
  let target_parts := splitDot target.data
  if current_parts.isEmpty || target_parts.isEmpty then false
  else
    let current_major := (parseU32 (current_parts.headD [])).getD 0
    let target_major := (parseU32 (target_parts.headD [])).getD 0
    decide (target_major > current_major)

/-- `UpgradeWorker::has_known_vulnerabilities` from lib.rs: the placeholder
oracle `package_name.contains("vulnerable") || version.contains("0.0.0")`. -/
def has_known_vulnerabilities (package_name version : String) : Bool :=
  rustContains package_name "vulnerable" || rustContains version "0.0.0"

/-- `UpgradeWorker::validate_request` from lib.rs: fail-fast checks on
repository, package name and the two version strings. -/
def validate_request (request : UpgradeRequest) : Except UpgradeError Unit :=
  if request.repository = "" then
    Except.error ⟨"Repository cannot be empty", ErrorType.Validation⟩
  else if request.package_name = "" then
    Except.error ⟨"Package name cannot be empty", ErrorType.Validation⟩
  else if !is_valid_version request.current_version then
    Except.error ⟨"Invalid current version: " ++ request.current_version,
      ErrorType.Validation⟩
  else if !is_valid_version request.target_version then
    Except.error ⟨"Invalid target version: " ++ request.target_version,
      ErrorType.Validation⟩
  else Except.ok ()

/-- `UpgradeWorker::assess_compatibility` from lib.rs: `0.8` times an
ecosystem multiplier, capped by `min` at `1.0` (`f64` as exact `ℚ`). -/
def assess_compatibility (request : UpgradeRequest) : Except UpgradeError ℚ :=
  let base_score : ℚ := 0.8
  let ecosystem_multiplier : ℚ :=
    if request.ecosystem = "npm" then 1.0
    else if request.ecosystem = "cargo" then 0.9
    else if request.ecosystem = "pip" then 0.85
    else if request.ecosystem = "go" then 0.95
    else 0.7
  let final_score := base_score * ecosystem_multiplier
  Except.ok (min final_score 1.0)

/-- `UpgradeWorker::generate_changes` from lib.rs: a `package.json` edit
for npm, a `Cargo.toml` edit for cargo, nothing otherwise. -/
def generate_changes (request : UpgradeRequest) : Except UpgradeError (List Change) :=
  let changes : List Change := []
  let changes :=
    if request.ecosystem = "npm" then
      changes ++ [{ file_path := "package.json",
                    change_type := ChangeType.Modify,
                    content := "\x7b\"dependencies\": \x7b\"" ++ request.package_name ++
                      "\": \"" ++ request.target_version ++ "\"\x7d\x7d",
                    metadata := [] }]
    else changes
  let changes :=
    if request.ecosystem = "cargo" then
      changes ++ [{ file_path := "Cargo.toml",
                    change_type := ChangeType.Modify,
                    content := "[dependencies]" ++ request.package_name ++
                      " = \"" ++ request.target_version ++ "\"",
                    metadata := [] }]
    else changes
  Except.ok changes

/-- `UpgradeWorker::assess_risk` from lib.rs: the mutable locals become
shadowing `let`s, updated in the source's order (version jump, then
vulnerabilities, then change volume). -/
def assess_risk (request : UpgradeRequest) (changes : List Change) :
    Except UpgradeError RiskAssessment :=
  let risk_level := RiskLevel.Low
  let breaking_changes := false
  let security_issues : List String := []
  let performance_impact := PerformanceImpact.None
  let jump := is_major_version_jump request.current_version request.target_version
  let risk_level := if jump then RiskLevel.High else risk_level
  let breaking_changes := if jump then true else breaking_changes
  let vuln := has_known_vulnerabilities request.package_name request.target_version
  let security_issues :=
    if vuln then security_issues ++ ["Known security vulnerability detected"]
    else security_issues
  let risk_level := if vuln then RiskLevel.Critical else risk_level
  let performance_impact :=
    if changes.length > 5 then PerformanceImpact.Medium else performance_impact
  Except.ok { risk_level := risk_level, breaking_changes := breaking_changes,
              security_issues := security_issues,
              performance_impact := performance_impact }

/-- `UpgradeWorker::process_upgrade` from lib.rs: validate, score
compatibility, generate changes, assess risk, then report success. -/
def process_upgrade (request : UpgradeRequest) : Except UpgradeError UpgradeResponse := do
  validate_request request
  let compatibility_score ← assess_compatibility request
  let changes ← generate_changes request
  let risk_assessment ← assess_risk request changes
  Except.ok { success := true, message := "Upgrade processed successfully",
              changes := changes, compatibility_score := compatibility_score,
              risk_assessment := risk_assessment }

/-! ## Basic facts about the string helpers -/

/-- Splitting on `'.'` never yields an empty list of parts (Rust's
`split` always produces at least one piece). -/
lemma splitDot_ne_nil (l : List Char) : splitDot l ≠ [] := by
  induction l with
  | nil => simp [splitDot]
  | cons c rest ih =>
    unfold splitDot
    split
    · simp
    · cases h : splitDot rest with
      | nil => simp
      | cons a b => simp [h]

/-- The per-component check of `is_valid_version`, read back as a
proposition: non-empty and every character accepted or a hyphen. -/
lemma component_check_iff (alnum : Char → Bool) (part : List Char) :
    (!part.isEmpty && part.all fun c => alnum c || c == '-') = true ↔
      part ≠ [] ∧ ∀ c ∈ part, alnum c = true ∨ c = '-' := by
  simp [List.all_eq_true, List.isEmpty_eq_false]

/-! ## C1: the vulnerability oracle -/

/-- C1 counterexample: the claim says the oracle fires only when the
version string *equals* `"0.0.0"`, but the code tests substring
containment, so the non-sentinel version `"10.0.0"` of a package whose
name does not contain `"vulnerable"` is still flagged. -/
theorem c1_counterexample :
    has_known_vulnerabilities "normal-package" "10.0.0" = true ∧
      "10.0.0" ≠ "0.0.0" ∧ rustContains "normal-package" "vulnerable" = false := by
  refine ⟨by decide, by decide, by decide⟩

/-- C1 (amended): the default Vulnerability Oracle returns true if and
only if the package name contains the substring `"vulnerable"` or the
version string *contains* the substring `"0.0.0"` (in particular the
exact sentinel `"0.0.0"` is flagged, but so is any version containing
it). -/
theorem c1_theorem (package_name version : String) :
    has_known_vulnerabilities package_name version = true ↔
      rustContains package_name "vulnerable" = true ∨ rustContains version "0.0.0" = true := by
  simp [has_known_vulnerabilities]

/-! ## C2: version validation -/

/-- Version validity as the (amended) spec reads, for a given character
classifier: 2 or 3 dot-separated components, each non-empty and made of
accepted characters or hyphens. -/
def validVersionSpecWith (alnum : Char → Bool) (s : String) : Prop :=
  (((splitDot s.data).length = 2 ∨ (splitDot s.data).length = 3) ∧
    ∀ part ∈ splitDot s.data, part ≠ [] ∧
      ∀ c ∈ part, alnum c = true ∨ c = '-')

/-- C2 counterexample: the claim restricts accepted characters to ASCII
alphanumerics and `'-'`, but the code uses Rust's Unicode-aware
`char::is_alphanumeric`, so `"1.é"` — whose second component is neither
ASCII alphanumeric nor a hyphen — is accepted. -/
theorem c2_counterexample :
    is_valid_version "1.é" = true ∧ ('é'.isAlphanum || 'é' == '-') = false := by
  refine ⟨by decide, by decide⟩

/-- C2 (amended): the validator accepts a string iff splitting on `'.'`
yields exactly 2 or 3 components, each non-empty and consisting solely
of characters the alphanumeric classifier accepts, or `'-'`.  The
statement quantifies over the classifier, so instantiating it at Rust's
real Unicode-aware `char::is_alphanumeric` gives the amended claim for
the program on all strings, independently of the modelled
`rustIsAlphanumeric` fragment (which is the `alnum := rustIsAlphanumeric`
instance defining `is_valid_version`). -/
theorem c2_theorem (alnum : Char → Bool) (s : String) :
    is_valid_version_with alnum s = true ↔ validVersionSpecWith alnum s := by
  simp only [is_valid_version_with, validVersionSpecWith]
  split
  next h =>
    simp only [Bool.or_eq_true, decide_eq_true_eq] at h
    constructor
    · intro hfalse
      exact absurd hfalse (by simp)
    · rintro ⟨hlen, -⟩
      exfalso
      omega
  next h =>
    simp only [Bool.or_eq_true, decide_eq_true_eq, not_or] at h
    have hlen : (splitDot s.data).length = 2 ∨ (splitDot s.data).length = 3 := by omega
    rw [List.all_eq_true]
    constructor
    · intro hall
      exact ⟨hlen, fun part hp => (component_check_iff alnum part).mp (hall part hp)⟩
    · intro hspec part hp
      exact (component_check_iff alnum part).mpr (hspec.2 part hp)

/-! ## C3: major version jumps -/

/-- The major version as the spec reads it: the integer (`u32`) value of
the first dot-separated component, with 0 for a component that fails to
parse. -/
def specMajor (s : String) : ℕ :=
  (parseU32 ((splitDot s.data).headD [])).getD 0

/-- C3: for validated version strings, `is_major_version_jump` holds iff
the target's major strictly exceeds the current's (unparseable majors
count as 0); equal or decreasing majors give `false`. -/
theorem c3_theorem (current target : String)
    (hc : is_valid_version current = true) (ht : is_valid_version target = true) :
    is_major_version_jump current target = true ↔ specMajor current < specMajor target := by
  clear hc ht
  unfold is_major_version_jump specMajor
  have h1 := splitDot_ne_nil current.data
  have h2 := splitDot_ne_nil target.data
  simp [List.isEmpty_eq_false.mpr h1, List.isEmpty_eq_false.mpr h2]

/-- C3 witness: the theorem applied to the validated pair
`("1.0.0", "2.0.0")`. -/
theorem c3_witness :
    is_valid_version "1.0.0" = true ∧ is_valid_version "2.0.0" = true ∧
      (is_major_version_jump "1.0.0" "2.0.0" = true ↔ specMajor "1.0.0" < specMajor "2.0.0") :=
  ⟨by decide, by decide, c3_theorem "1.0.0" "2.0.0" (by decide) (by decide)⟩

/-! ## C4: compatibility scoring -/

/-- Ecosystem factor exactly as the spec lists it: npm 1.0, cargo 0.9,
pip 0.85, go 0.95, anything unrecognized 0.7. -/
def specEcosystemFactor (ecosystem : String) : ℚ :=
  if ecosystem = "npm" then 1.0
  else if ecosystem = "cargo" then 0.9
  else if ecosystem = "pip" then 0.85
  else if ecosystem = "go" then 0.95
  else 0.7

/-- C4: `assess_compatibility` never fails, its score lies in `[0, 1]`,
and the score is `0.8` times the ecosystem factor clamped above at `1`. -/
theorem c4_theorem (r : UpgradeRequest) :
    ∃ q : ℚ, assess_compatibility r = Except.ok q ∧ 0 ≤ q ∧ q ≤ 1 ∧
      q = min (0.8 * specEcosystemFactor r.ecosystem) 1.0 := by
  have hF : 0 ≤ specEcosystemFactor r.ecosystem := by
    unfold specEcosystemFactor
    split_ifs <;> norm_num
  exact ⟨min (0.8 * specEcosystemFactor r.ecosystem) 1.0, rfl,
    le_min (by positivity) (by norm_num),
    le_trans (min_le_right _ _) (by norm_num), rfl⟩

/-! ## C5: change generation -/

/-- C5: npm requests yield exactly the one `package.json` modification
pinning the package to the target version, cargo requests exactly the
one `Cargo.toml` modification, and any other ecosystem yields no
changes. -/
theorem c5_theorem (r : UpgradeRequest) :
    (r.ecosystem = "npm" → generate_changes r = Except.ok
      [{ file_path := "package.json", change_type := ChangeType.Modify,
         content := "\x7b\"dependencies\": \x7b\"" ++ r.package_name ++ "\": \"" ++
           r.target_version ++ "\"\x7d\x7d", metadata := [] }]) ∧
    (r.ecosystem = "cargo" → generate_changes r = Except.ok
      [{ file_path := "Cargo.toml", change_type := ChangeType.Modify,
         content := "[dependencies]" ++ r.package_name ++ " = \"" ++
           r.target_version ++ "\"", metadata := [] }]) ∧
    (r.ecosystem ≠ "npm" → r.ecosystem ≠ "cargo" → generate_changes r = Except.ok []) := by
  refine ⟨fun h => ?_, fun h => ?_, fun h1 h2 => ?_⟩
  · simp only [generate_changes, h]
    rfl
  · simp only [generate_changes, h]
    rfl
  · simp [generate_changes, h1, h2]

/-- C5 witness: the theorem applied to one npm request, one cargo
request and one pip request. -/
theorem c5_witness :
    generate_changes ⟨"test/repo", "npm", "lodash", "1.0.0", "2.0.0", []⟩ = Except.ok
      [{ file_path := "package.json", change_type := ChangeType.Modify,
         content := "\x7b\"dependencies\": \x7b\"lodash\": \"2.0.0\"\x7d\x7d",
         metadata := [] }] ∧
    generate_changes ⟨"test/repo", "cargo", "serde", "1.0.0", "2.0.0", []⟩ = Except.ok
      [{ file_path := "Cargo.toml", change_type := ChangeType.Modify,
         content := "[dependencies]serde = \"2.0.0\"", metadata := [] }] ∧
    generate_changes ⟨"test/repo", "pip", "requests", "1.0.0", "2.0.0", []⟩ =
      Except.ok [] :=
  ⟨(c5_theorem _).1 rfl, (c5_theorem _).2.1 rfl, (c5_theorem _).2.2 (by decide) (by decide)⟩

/-! ## Risk assessment: closed form -/

/-- The risk assessment `assess_risk` actually produces, in closed form:
Critical on a vulnerability finding, else High on a major jump, else
Low; breaking changes iff a major jump; one finding string iff the
oracle fired; Medium performance impact iff more than 5 changes. -/
def riskValue (r : UpgradeRequest) (cs : List Change) : RiskAssessment :=
  { risk_level :=
      if has_known_vulnerabilities r.package_name r.target_version then RiskLevel.Critical
      else if is_major_version_jump r.current_version r.target_version then RiskLevel.High
      else RiskLevel.Low,
    breaking_changes := is_major_version_jump r.current_version r.target_version,
    security_issues :=
      if has_known_vulnerabilities r.package_name r.target_version then
        ["Known security vulnerability detected"]
      else [],
    performance_impact :=
      if cs.length > 5 then PerformanceImpact.Medium else PerformanceImpact.None }

/-- `assess_risk` never fails and returns exactly `riskValue`. -/
lemma assess_risk_eq (r : UpgradeRequest) (cs : List Change) :
    assess_risk r cs = Except.ok (riskValue r cs) := by
  unfold assess_risk riskValue
  cases hj : is_major_version_jump r.current_version r.target_version <;>
    cases hv : has_known_vulnerabilities r.package_name r.target_version <;>
      simp [hj, hv]

/-! ## C6: risk levels and security findings -/

/-- C6: a vulnerability finding forces `Critical` risk and a non-empty
findings list regardless of the version delta; without one the findings
list is empty and risk is `High` with breaking changes exactly on a
major jump, `Low` without breaking changes otherwise. -/
theorem c6_theorem (r : UpgradeRequest) (cs : List Change) :
    ∃ a : RiskAssessment, assess_risk r cs = Except.ok a ∧
      a.risk_level =
        (if has_known_vulnerabilities r.package_name r.target_version then RiskLevel.Critical
         else if is_major_version_jump r.current_version r.target_version then RiskLevel.High
         else RiskLevel.Low) ∧
      a.security_issues =
        (if has_known_vulnerabilities r.package_name r.target_version then
          ["Known security vulnerability detected"]
         else []) ∧
      a.breaking_changes = is_major_version_jump r.current_version r.target_version :=
  ⟨riskValue r cs, assess_risk_eq r cs, rfl, rfl, rfl⟩

/-! ## C7: performance impact -/

/-- C7: the performance impact is `Medium` exactly when more than 5
changes were synthesized and `None` otherwise, and the change-volume
signal has no influence on the risk level (nor on the other fields). -/
theorem c7_theorem (r : UpgradeRequest) (cs cs' : List Change) :
    (assess_risk r cs).toOption.map RiskAssessment.performance_impact =
      some (if cs.length > 5 then PerformanceImpact.Medium else PerformanceImpact.None) ∧
    (assess_risk r cs).toOption.map RiskAssessment.risk_level =
      (assess_risk r cs').toOption.map RiskAssessment.risk_level ∧
    (assess_risk r cs).toOption.map RiskAssessment.breaking_changes =
      (assess_risk r cs').toOption.map RiskAssessment.breaking_changes ∧
    (assess_risk r cs).toOption.map RiskAssessment.security_issues =
      (assess_risk r cs').toOption.map RiskAssessment.security_issues := by
  rw [assess_risk_eq r cs, assess_risk_eq r cs']
  exact ⟨rfl, rfl, rfl, rfl⟩

/-! ## Pipeline lemmas -/

/-- A validation error short-circuits the whole pipeline. -/
lemma process_upgrade_error (r : UpgradeRequest) (e : UpgradeError)
    (hv : validate_request r = Except.error e) :
    process_upgrade r = Except.error e := by
  unfold process_upgrade
  rw [hv]
  rfl

/-- When validation passes, the pipeline succeeds with the fixed success
message, the generated changes, and the risk assessment in closed form. -/
lemma process_upgrade_success (r : UpgradeRequest) (hv : validate_request r = Except.ok ()) :
    ∃ resp, process_upgrade r = Except.ok resp ∧ resp.success = true ∧
      resp.message = "Upgrade processed successfully" ∧
      resp.risk_assessment = riskValue r resp.changes ∧
      generate_changes r = Except.ok resp.changes := by
  obtain ⟨q, hq⟩ : ∃ q, assess_compatibility r = Except.ok q := ⟨_, rfl⟩
  obtain ⟨cs, hcs⟩ : ∃ cs, generate_changes r = Except.ok cs := ⟨_, rfl⟩
  refine ⟨⟨true, "Upgrade processed successfully", cs, q, riskValue r cs⟩,
    ?_, rfl, rfl, rfl, hcs⟩
  unfold process_upgrade
  rw [hv, hq, hcs]
  simp only [assess_risk_eq]
  rfl

/-! ## C8: validation is the only failure source, fail-fast -/

/-- C8: the pipeline fails exactly on validation, with a `Validation`
error naming the first failing field in the fixed order repository →
package name → current version → target version, and succeeds with the
fixed success message otherwise. -/
theorem c8_theorem (r : UpgradeRequest) :
    (r.repository = "" → process_upgrade r =
      Except.error ⟨"Repository cannot be empty", ErrorType.Validation⟩) ∧
    (r.repository ≠ "" → r.package_name = "" → process_upgrade r =
      Except.error ⟨"Package name cannot be empty", ErrorType.Validation⟩) ∧
    (r.repository ≠ "" → r.package_name ≠ "" → is_valid_version r.current_version = false →
      process_upgrade r =
        Except.error ⟨"Invalid current version: " ++ r.current_version, ErrorType.Validation⟩) ∧
    (r.repository ≠ "" → r.package_name ≠ "" → is_valid_version r.current_version = true →
      is_valid_version r.target_version = false → process_upgrade r =
        Except.error ⟨"Invalid target version: " ++ r.target_version, ErrorType.Validation⟩) ∧
    (r.repository ≠ "" → r.package_name ≠ "" → is_valid_version r.current_version = true →
      is_valid_version r.target_version = true →
      ∃ resp, process_upgrade r = Except.ok resp ∧ resp.success = true ∧
        resp.message = "Upgrade processed successfully") := by
  refine ⟨fun h1 => ?_, fun h1 h2 => ?_, fun h1 h2 h3 => ?_, fun h1 h2 h3 h4 => ?_,
    fun h1 h2 h3 h4 => ?_⟩
  · exact process_upgrade_error r _ (by simp [validate_request, h1])
  · exact process_upgrade_error r _ (by simp [validate_request, h1, h2])
  · exact process_upgrade_error r _ (by simp [validate_request, h1, h2, h3])
  · exact process_upgrade_error r _ (by simp [validate_request, h1, h2, h3, h4])
  · obtain ⟨resp, hr, hs, hm, -, -⟩ :=
      process_upgrade_success r (by simp [validate_request, h1, h2, h3, h4])
    exact ⟨resp, hr, hs, hm⟩

/-- C8 witness: the theorem applied to five concrete requests, one per
branch (each earlier check passing when a later one is exercised). -/
theorem c8_witness :
    process_upgrade ⟨"", "npm", "lodash", "1.0.0", "2.0.0", []⟩ =
      Except.error ⟨"Repository cannot be empty", ErrorType.Validation⟩ ∧
    process_upgrade ⟨"test/repo", "npm", "", "1.0.0", "2.0.0", []⟩ =
      Except.error ⟨"Package name cannot be empty", ErrorType.Validation⟩ ∧
    process_upgrade ⟨"test/repo", "npm", "lodash", "bad", "2.0.0", []⟩ =
      Except.error ⟨"Invalid current version: bad", ErrorType.Validation⟩ ∧
    process_upgrade ⟨"test/repo", "npm", "lodash", "1.0.0", "bad", []⟩ =
      Except.error ⟨"Invalid target version: bad", ErrorType.Validation⟩ ∧
    (∃ resp, process_upgrade ⟨"test/repo", "npm", "lodash", "1.0.0", "2.0.0", []⟩ =
      Except.ok resp ∧ resp.success = true ∧
      resp.message = "Upgrade processed successfully") :=
  ⟨(c8_theorem _).1 rfl,
   (c8_theorem _).2.1 (by decide) rfl,
   (c8_theorem _).2.2.1 (by decide) (by decide) (by decide),
   (c8_theorem _).2.2.2.1 (by decide) (by decide) (by decide) (by decide),
   (c8_theorem _).2.2.2.2 (by decide) (by decide) (by decide) (by decide)⟩

/-! ## C9: metadata is opaque -/

/-- C9: two requests that differ only in their metadata mapping are
processed to identical results. -/
theorem c9_theorem (repository ecosystem package_name current_version target_version : String)
    (m₁ m₂ : List (String × Json)) :
    process_upgrade ⟨repository, ecosystem, package_name, current_version, target_version, m₁⟩ =
      process_upgrade ⟨repository, ecosystem, package_name, current_version, target_version, m₂⟩ :=
  rfl

/-! ## C10: at most one change, hence never a Medium performance impact -/

/-- `generate_changes` pushes at most one change. -/
lemma generate_changes_le_one (r : UpgradeRequest) :
    ∃ cs, generate_changes r = Except.ok cs ∧ cs.length ≤ 1 := by
  by_cases h1 : r.ecosystem = "npm"
  · refine ⟨_, by simp only [generate_changes, h1]; rfl, by simp⟩
  · by_cases h2 : r.ecosystem = "cargo"
    · refine ⟨_, by simp only [generate_changes, h2]; rfl, by simp⟩
    · exact ⟨[], by simp [generate_changes, h1, h2], by simp⟩

/-- C10: every change list is of length at most 1, so a successful
pipeline run always reports a `None` performance impact. -/
theorem c10_theorem (r : UpgradeRequest) :
    ∃ cs, generate_changes r = Except.ok cs ∧ cs.length ≤ 1 ∧
      ((process_upgrade r).toOption.map fun resp => resp.risk_assessment.performance_impact) =
        ((process_upgrade r).toOption.map fun _ => PerformanceImpact.None) := by
  obtain ⟨cs, hcs, hlen⟩ := generate_changes_le_one r
  refine ⟨cs, hcs, hlen, ?_⟩
  cases hv : validate_request r with
  | error e => rw [process_upgrade_error r e hv]; rfl
  | ok u =>
    cases u
    obtain ⟨resp, hr, -, -, hrisk, hcs'⟩ := process_upgrade_success r hv
    rw [hr]
    rw [hcs] at hcs'
    injection hcs' with h
    rw [h] at hlen
    have h5 : ¬ resp.changes.length > 5 := by omega
    simp [Except.toOption, hrisk, riskValue, h5]
